import Mathlib

/-!
Shallow embedding of gifhub's `main.go` (the activity-GIF program): the byte-token
extraction parser (`extractBetween`, `scrapeActivity`), the coordinate mapper
(`cappedDelta`, `coordinates`) and the five-stage processing pipeline of
`generateGIF` (`genYears`, `genActivities`, `genGraph`, `genSVG`, `genJPG`,
`bundleJPGs`, `gif`), together with theorems settling the spec claims about them.

Go byte strings are modeled as lists of characters (`Str`); all tokens and data
involved are ASCII, so Go's byte-wise lexicographic order coincides with the
`Char`-wise lexicographic order on `List Char`.  Machine `float64` arithmetic of the
coordinate mapper is modeled over the real numbers.  External effects (HTTP bodies,
temp-file random suffixes, template execution, the ImageMagick `convert` calls) are
modeled by oracles passed in as functions, and the unspecified completion order of
the two fan-out stages is modeled by quantifying over arbitrary permutations of the
corresponding channel contents.
-/

/-- Go byte strings, as lists of characters. -/
abbrev Str := List Char

/-- The error values surfaced by the program (each constructor corresponds to one
`errors.New`/`fmt.Errorf` site in `main.go`). -/
inductive Err where
  /-- `patternNotFound`: "bytes.Index: could not find %s". -/
  | notFound (pattern : Str)
  /-- "bytes.Index: left offset larger than s: %s" (shown unreachable below). -/
  | leftOffset (pattern : Str)
  /-- "bytes.Index: did not find any activityKeys in: %s". -/
  | noActivityKeys (container : Str)
  /-- `strconv.Atoi` failure on the given span. -/
  | atoiErr (span : Str)
  /-- `html`: transport error or non-200 status for the given URL. -/
  | network (url : Str)
  /-- `svg`: template parsing / temp file / template execution failure. -/
  | tmplFail
  /-- `jpg`: ImageMagick conversion failure for the given SVG. -/
  | jpgFail (svg : Str)
  /-- `generateGIF`: "Failed to create a single JPG for %s". -/
  | emptyResult (handle : Str)
  /-- `generateGIF`: "failed to parse any years". -/
  | noYears
  /-- `gif`: "GIF: no JPGs to bundle". -/
  | noJPGs
  /-- `gif`: "GIF: no transition speed given". -/
  | noSpeed
  /-- `gif`: "GIF: no resize speed given". -/
  | noResize
  /-- `gif`: ImageMagick bundling failure. -/
  | gifFail
  deriving DecidableEq, Repr

/-- `matchesAt pat s`: `pat` occurs at the very start of `s` — the anchor test
underlying the `bytes.Index` scan. -/
def matchesAt : Str → Str → Bool
  | [], _ => true
  | _ :: _, [] => false
  | p :: ps, c :: cs => p == c && matchesAt ps cs

/-- Embedding of Go `bytes.Index s pat`: index of the first occurrence of `pat` in
`s`; `none` models Go's `-1`. -/
def bIndexO (pat : Str) : Str → Option Nat
  | [] => if matchesAt pat [] then some 0 else none
  | c :: rest => if matchesAt pat (c :: rest) then some 0 else (bIndexO pat rest).map (· + 1)

/-- Embedding of Go `extractBetween(s, left, right)`: the bytes strictly between the
first occurrence of `left` and the next occurrence of `right`. -/
def extractBetween (s left right : Str) : Except Err Str :=
  match bIndexO left s with
  | none => .error (.notFound left)
  | some leftIdx =>
    let leftOffset := leftIdx + left.length
    if s.length < leftOffset then .error (.leftOffset left)
    else
      match bIndexO right (s.drop leftOffset) with
      | none => .error (.notFound right)
      | some rightIdx => .ok ((s.drop leftOffset).take rightIdx)

/-- Embedding of Go `strconv.Atoi` on a 64-bit `int`: an optional single leading
sign followed by one or more decimal digits; anything else — including an
out-of-range value — is an error. -/
def atoi (s : Str) : Except Err Int :=
  let signDigits : Bool × Str :=
    match s with
    | '-' :: rest => (true, rest)
    | '+' :: rest => (false, rest)
    | _ => (false, s)
  if signDigits.2.isEmpty then .error (.atoiErr s)
  else if signDigits.2.all (fun c => c.isDigit) then
    let n : Nat := signDigits.2.foldl (fun acc c => acc * 10 + (c.toNat - '0'.toNat)) 0
    if signDigits.1 then
      if n ≤ 2 ^ 63 then .ok (-(n : Int)) else .error (.atoiErr s)
    else
      if n < 2 ^ 63 then .ok (n : Int) else .error (.atoiErr s)
  else .error (.atoiErr s)

/-- Left-to-right scan of `bytes.Replace(s, old, new, -1)`, with an explicit
character-count fuel so that the recursion is structural (and hence evaluable by
the kernel); every step consumes at least one character of `s`, so `fuel =
s.length` (as passed by `replaceAll`) never runs out and the `0` case is
unreachable there. -/
def replaceAllAux (old new : Str) : Nat → Str → Str
  | _, [] => []
  | 0, s => s
  | fuel + 1, c :: rest =>
    if old ≠ [] ∧ matchesAt old (c :: rest) = true then
      new ++ replaceAllAux old new fuel ((c :: rest).drop old.length)
    else
      c :: replaceAllAux old new fuel rest

/-- Embedding of Go `bytes.Replace(s, old, new, -1)` (replace all occurrences,
scanning left to right); the call site uses the non-empty token `&quot;`. -/
def replaceAll (old new s : Str) : Str := replaceAllAux old new s.length s

/-- Embedding of Go `strings.Replace(s, old, new, 1)`: replace the first occurrence
of `old` (if any) by `new`. -/
def replaceFirst (old new : Str) : Str → Str
  | [] => if old.isEmpty then new else []
  | c :: rest =>
    if matchesAt old (c :: rest) then new ++ (c :: rest).drop old.length
    else c :: replaceFirst old new rest

/-- The record produced by the fetch/parse stage (Go struct `activity`). -/
structure activity where
  Handle : Str
  Year : Str
  Commits : Int
  Issues : Int
  Prs : Int
  CodeReviews : Int
  deriving DecidableEq, Repr, Inhabited

def commitsKey : Str := "commits".toList
def issuesKey : Str := "issues".toList
def prsKey : Str := "prs".toList
def codeReviewsKey : Str := "codeReviews".toList

def commitsTok : Str := "Commits:".toList
def issuesTok : Str := "Issues:".toList
def prsTok : Str := "Pull requests:".toList
def codeReviewsTok : Str := "Code review:".toList

/-- The `activityKeys` map of `scrapeActivity`, as an association list in its
declared order. -/
def activityKeys : List (Str × Str) :=
  [(commitsKey, commitsTok), (issuesKey, issuesTok),
   (prsKey, prsTok), (codeReviewsKey, codeReviewsTok)]

def activityAttr : Str := "data-percentages=\"".toList
def closingTag : Str := "\">".toList
def quoteUnicode : Str := "&quot;".toList
def commaTok : Str := ",".toList
def closingBracketTok : Str := "\x7d".toList

/-- The first loop of `scrapeActivity`: find the key whose token occurs last in the
container (that key's value is terminated by `}` instead of `,`).  Go iterates the
`activityKeys` map in unspecified order, comparing with a strict `>` against an
accumulator starting at `-1`; since two distinct tokens can never first-occur at the
same index (none is a prefix of another), the maximum is unique and the outcome is
iteration-order independent, so folding in the declared order is a faithful
embedding.  An absent token (Go index `-1`) never beats the accumulator, which is
what skipping `none` implements.  `scanStep` is one iteration of that loop. -/
def scanStep (clean : Str) (acc : Int × Str) (kv : Str × Str) : Int × Str :=
  match bIndexO kv.2 clean with
  | some idx => if acc.1 < (idx : Int) then ((idx : Int), kv.1) else acc
  | none => acc

/-- The result of the first loop of `scrapeActivity`: the greatest first-occurrence
index over the four tokens (`-1` when none occurs) together with its key. -/
def lastActivityScan (clean : Str) : Int × Str :=
  activityKeys.foldl (scanStep clean) (-1, [])

/-- The second loop of `scrapeActivity`: for each key, extract its value span (the
last-occurring key is terminated by `}`, the others by `,`), parse it with `atoi`,
and store only nonzero values (Go writes them into a map, modeled by an association
list; keys are distinct so the semantics agree).  The first failing key aborts the
whole scrape.  Go's map iteration order is unspecified; the embedding fixes the
declared key order, and only iteration-order-robust facts are claimed of it. -/
def scrapeFields (clean lastKey : Str) : List (Str × Str) → Except Err (List (Str × Int))
  | [] => .ok []
  | (k, token) :: rest =>
    match extractBetween clean token (if k = lastKey then closingBracketTok else commaTok) with
    | .error e => .error e
    | .ok value =>
      match atoi value with
      | .error e => .error e
      | .ok num =>
        match scrapeFields clean lastKey rest with
        | .error e => .error e
        | .ok acc => .ok (if num ≠ 0 then (k, num) :: acc else acc)

/-- Reading the Go map `activities[k]` (zero value `0` for a missing key). -/
def lookupD (l : List (Str × Int)) (k : Str) : Int :=
  match l with
  | [] => 0
  | (k2, v) :: rest => if k2 = k then v else lookupD rest k

/-- Embedding of Go `scrapeActivity`: extract the `data-percentages="..."`
container, strip `&quot;` entities, locate the last-occurring key, extract and parse
all four labeled values, and materialize the nonzero ones. -/
def scrapeActivity (html : Str) : Except Err activity :=
  match extractBetween html activityAttr closingTag with
  | .error e => .error e
  | .ok rawActivity =>
    let cleanActivity := replaceAll quoteUnicode [] rawActivity
    let last := lastActivityScan cleanActivity
    if last.1 = -1 then .error (.noActivityKeys cleanActivity)
    else
      match scrapeFields cleanActivity last.2 activityKeys with
      | .error e => .error e
      | .ok fields =>
        .ok { Handle := [], Year := [],
              Commits := lookupD fields commitsKey,
              Issues := lookupD fields issuesKey,
              Prs := lookupD fields prsKey,
              CodeReviews := lookupD fields codeReviewsKey }

/-- The per-year overview URL built by `parseActivity`. -/
def activityURL (handle year : Str) : Str :=
  "https://github.com/".toList ++ handle ++ "?tab=overview&from=".toList ++ year
    ++ "-01-01&to=".toList ++ year ++ "-12-31".toList

/-- Embedding of Go `parseActivity`: fetch the overview page (the HTTP helper `html`
is modeled by the `fetch` oracle mapping a URL to its body or a network/status
error), scrape it, and tag the record with the handle and year. -/
def parseActivity (fetch : Str → Except Err Str) (handle year : Str) : Except Err activity :=
  match fetch (activityURL handle year) with
  | .error e => .error e
  | .ok body =>
    match scrapeActivity body with
    | .error e => .error e
    | .ok a => .ok { a with Handle := handle, Year := year }

/-- Embedding of Go `cappedDelta(n, m, thresh)`: `m` times the ratio
`1 - e^(-n/50)`, with the ratio snapped to `1.0` once it exceeds `thresh`
(`math.Pow(math.E, x)` is `e^x`, i.e. `Real.exp x`); real-number idealization of
the `float64` arithmetic. -/
noncomputable def cappedDelta (n m thresh : ℝ) : ℝ :=
  let delta := 1 - Real.exp (n / -50)
  m * (if delta > thresh then 1 else delta)

/-- The X,Y coordinates of the activities in an activity graph (Go struct
`coords`). -/
structure coords where
  CodeReviewY : ℝ
  IssuesX : ℝ
  PrsY : ℝ
  CommitsX : ℝ

/-- Embedding of Go `coordinates`: the four offsets around the axis center
(`xAxis = 137.5`, `yAxis = 127.5`, `activityLength = 67.5`, `thresh = 0.8`); the Go
function always returns a `nil` error. -/
noncomputable def coordinates (a : activity) : Except Err coords :=
  .ok { CodeReviewY := 127.5 - cappedDelta (a.CodeReviews : ℝ) 67.5 0.8
      , IssuesX := 137.5 + cappedDelta (a.Issues : ℝ) 67.5 0.8
      , PrsY := 127.5 + cappedDelta (a.Prs : ℝ) 67.5 0.8
      , CommitsX := 137.5 - cappedDelta (a.Commits : ℝ) 67.5 0.8 }

/-- A user's activity for a year together with its geometry (Go struct `graph`). -/
structure graph where
  Data : activity
  Coords : coords

/-- `genYears` emits every requested year, in order, into its output channel. -/
def genYears (years : List Str) : List Str := years

/-- The multiset of records produced by the `genActivities` fan-out, written here in
the input order; the unspecified task-completion order is imposed on top of this
list by the `sched1` permutation quantified over in the theorems.  A task whose
`parseActivity` fails logs and emits nothing.  Unlike `genJPG`'s, this stage's
join barrier always completes: it does `wg.Add(size)` with `size = len(years)`
and launches one task (one deferred `wg.Done`) per year received, `genYears`
emits every year, and a task signals whether or not it emits a record — so the
output channel is always closed and the stage is a total list transformer. -/
def genActivitiesSeq (fetch : Str → Except Err Str) (handle : Str)
    (years : List Str) : List activity :=
  years.filterMap (fun y => (parseActivity fetch handle y).toOption)

/-- Embedding of `genGraph`: sequential; a `coordinates` error would be logged and
the item dropped (`continue`), though `coordinates` never fails. -/
noncomputable def genGraph (acts : List activity) : List graph :=
  acts.filterMap (fun act =>
    match coordinates act with
    | .error _ => none
    | .ok coord => some { Data := act, Coords := coord })

def svgExt : Str := ".svg".toList
def jpgExt : Str := ".jpg".toList

/-- The stem `<dir>/<handle>-<year>-<suffix>` of the temp file created by Go `svg`:
`ioutil.TempFile dir pattern` replaces the `*` of the pattern
`<handle>-<year>-*.svg` by a random string, modeled by the `suffix` oracle (keyed by
the year, the only varying part of the pattern within one run). -/
def svgStem (dir : Str) (suffix : Str → Str) (handle year : Str) : Str :=
  dir ++ "/".toList ++ handle ++ "-".toList ++ year ++ "-".toList ++ suffix year

/-- Embedding of Go `svg`: emit the SVG for a graph into a fresh temp file and
return its name.  Template parsing, directory creation, temp-file creation and
template execution are file-system/template effects collapsed into the success
oracle `svgOk`. -/
def svgGo (dir : Str) (suffix : Str → Str) (svgOk : graph → Bool) (g : graph) :
    Except Err Str :=
  if svgOk g then .ok (svgStem dir suffix g.Data.Handle g.Data.Year ++ svgExt)
  else .error .tmplFail

/-- Embedding of `genSVG`: sequential; a failed item is logged and dropped (its
name is still appended to the garbage collector, which is not modeled). -/
def genSVG (dir : Str) (suffix : Str → Str) (svgOk : graph → Bool)
    (graphs : List graph) : List Str :=
  graphs.filterMap (fun g =>
    match svgGo dir suffix svgOk g with
    | .error _ => none
    | .ok name => some name)

/-- Embedding of Go `jpg`: convert an SVG to JPG via the external ImageMagick
`convert` (modeled by the `convertOk` oracle); the JPG name replaces the first
`".svg"` in the SVG name by `".jpg"`. -/
def jpgGo (convertOk : Str → Bool) (s : Str) : Except Err Str :=
  if convertOk s then .ok (replaceFirst svgExt jpgExt s) else .error (.jpgFail s)

/-- The multiset of names the `genJPG` fan-out sends on its output channel, in
input order (the completion order is imposed by the `sched2` permutation in the
theorems): one conversion task per arriving SVG; a failed conversion is logged and
the item dropped (its deferred `wg.Done` still fires). -/
def jpgEmitted (convertOk : Str → Bool) (svgs : List Str) : List Str :=
  svgs.filterMap (fun s =>
    match jpgGo convertOk s with
    | .error _ => none
    | .ok name => some name)

/-- Embedding of the `genJPG` stage as observed by the sink.  Go's `genJPG` does
`wg.Add(size)` with `size` the requested period count, but spawns one conversion
task — hence one `wg.Done()` — per SVG *arriving* on its input channel, and runs
`close(out)` only after `wg.Wait()` returns.  When every requested period reaches
this stage (`svgs.length = size`) the barrier completes and the channel is closed
after the emitted conversions: `some (jpgEmitted ...)`.  When any upstream stage
dropped an item (`svgs.length < size`, the only other possibility) fewer `Done`
calls than `size` ever happen, `wg.Wait()` blocks forever, the channel is never
closed, and the sink's drain loop never terminates: `none`. -/
def genJPG (convertOk : Str → Bool) (size : Nat) (svgs : List Str) : Option (List Str) :=
  if svgs.length = size then some (jpgEmitted convertOk svgs) else none

/-- Embedding of the pipeline sink `bundleJPGs`: drain the channel and sort the
names ascending (`sort.Strings`; for the linear string order the sorted permutation
is unique, so the choice of sorting algorithm is immaterial). -/
def bundleJPGs (jpgs : List Str) : List Str :=
  List.insertionSort (· ≤ ·) jpgs

/-- `filepath.Dir` for the clean '/'-separated paths without trailing separator
produced by this program: everything before the last '/', or "." when there is no
separator. -/
def dirOf (p : Str) : Str :=
  if p.contains '/' then
    p.take (p.length - 1 - (p.reverse.takeWhile (fun c => c != '/')).length)
  else ".".toList

/-- Embedding of Go `gif`: bundle the JPGs into `<dir of first JPG>/<handle>.gif`
via the external ImageMagick `convert` (modeled by the `gifOk` oracle); fails on an
empty JPG list or empty speed/resize flags.  (`filepath.Join`'s path cleaning is
elided for the already-clean paths produced here.) -/
def gifGo (jpgs : List Str) (handle speed resize : Str) (gifOk : Bool) :
    Except Err Str :=
  if jpgs.isEmpty then .error .noJPGs
  else if speed.isEmpty then .error .noSpeed
  else if resize.isEmpty then .error .noResize
  else if gifOk then .ok (dirOf (jpgs.headD []) ++ "/".toList ++ handle ++ ".gif".toList)
  else .error .gifFail

/-- The ordered frame sequence reaching the encoder: all five stages composed, with
`sched1`/`sched2` the completion orders of the two fan-out stages and
`years.length` the `chanSize` that `generateGIF` wires into `genJPG`'s join
barrier.  `genActivities`' own barrier always completes (it launches exactly one
task per year received and `genYears` emits every year), and `genGraph`/`genSVG`
are sequential loops that close their channel on input exhaustion, so the only
stage that can fail to close is `genJPG`: `none` means its barrier never
completes and `bundleJPGs`' drain loop blocks forever, producing no frame
sequence at all. -/
noncomputable def pipelineFrames (fetch : Str → Except Err Str) (suffix : Str → Str)
    (svgOk : graph → Bool) (convertOk : Str → Bool) (handle dir : Str)
    (years : List Str) (sched1 : List activity → List activity)
    (sched2 : List Str → List Str) : Option (List Str) :=
  match genJPG convertOk years.length
    (genSVG dir suffix svgOk (genGraph (sched1 (genActivitiesSeq fetch handle (genYears years))))) with
  | none => none
  | some jpgs => some (bundleJPGs (sched2 jpgs))

/-- The body of `generateGIF` after flag parsing: run the pipeline, fail with the
"Failed to create a single JPG" error when the sink drained an empty channel,
otherwise hand the sorted frames to `gif`.  `none` means the run never returns:
the sink blocks forever on the never-closed jpg channel, so control never reaches
the empty-result check or `gif`.  Temp-file bookkeeping (`garbageCollector`,
`cleanUp`) is external state that never influences the emitted values and is not
modeled. -/
noncomputable def generateGIFRun (fetch : Str → Except Err Str) (suffix : Str → Str)
    (svgOk : graph → Bool) (convertOk : Str → Bool) (gifOk : Bool)
    (handle dir speed resize : Str) (years : List Str)
    (sched1 : List activity → List activity) (sched2 : List Str → List Str) :
    Option (Except Err Str) :=
  if years.isEmpty then some (.error .noYears)
  else
    match pipelineFrames fetch suffix svgOk convertOk handle dir years sched1 sched2 with
    | none => none
    | some sorted =>
      some (if sorted.isEmpty then .error (.emptyResult handle)
            else gifGo sorted handle speed resize gifOk)

/-- `Except` success test (Go's `err == nil`). -/
def isOkE {α : Type} (e : Except Err α) : Bool :=
  match e with
  | .ok _ => true
  | .error _ => false

instance {ε α : Type} [DecidableEq ε] [DecidableEq α] : DecidableEq (Except ε α) := fun x y =>
  match x, y with
  | .ok a, .ok b => decidable_of_iff (a = b) (by simp)
  | .error e1, .error e2 => decidable_of_iff (e1 = e2) (by simp)
  | .ok _, .error _ => isFalse (fun h => Except.noConfusion h)
  | .error _, .ok _ => isFalse (fun h => Except.noConfusion h)

/-- The terminator `scrapeActivity` uses for key `k` when scraping `clean`: the
closing brace for the last-occurring key, the field comma otherwise (an
abbreviation of the code path, used to state theorems about single keys). -/
def termTok (clean k : Str) : Str :=
  if k = (lastActivityScan clean).2 then closingBracketTok else commaTok

/-- The extraction of the value span of the key/token pair `kv` from the cleaned
container `clean`, exactly as the second loop of `scrapeActivity` performs it. -/
def keySpan (clean : Str) (kv : Str × Str) : Except Err Str :=
  extractBetween clean kv.2 (termTok clean kv.1)

/-- Sample page: a well-formed container holding all four labels, with a zero
`Issues` field (the container of the spec's extraction-parser example). -/
def htmlSample : Str :=
  "data-percentages=\"\x7bCommits:5,Issues:0,Pull requests:12,Code review:3\x7d\">".toList

/-- Page whose `Commits` span `-5` carries a leading sign (a non-digit character
accepted by `strconv.Atoi`). -/
def htmlSigned : Str :=
  "data-percentages=\"\x7bCommits:-5,Issues:1,Pull requests:2,Code review:3\x7d\">".toList

/-- Page whose `Commits` span `5x` contains a non-digit character rejected by
`strconv.Atoi`. -/
def htmlBadSpan : Str :=
  "data-percentages=\"\x7bCommits:5x,Issues:1,Pull requests:2,Code review:3\x7d\">".toList

/-- Page whose `Commits` span is the digit-only value `99999999999999999999`, out of
64-bit integer range. -/
def htmlOverflow : Str :=
  "data-percentages=\"\x7bCommits:99999999999999999999,Issues:1,Pull requests:2,Code review:3\x7d\">".toList

/-- Page whose `Commits` span is `200`, outside the percentage range `[0,100]`. -/
def htmlOver100 : Str :=
  "data-percentages=\"\x7bCommits:200,Issues:1,Pull requests:2,Code review:3\x7d\">".toList

/-- Page whose container `hello` holds none of the four labels. -/
def htmlNoKeys : Str := "data-percentages=\"hello\">".toList

/-- Fetch oracle returning the well-formed sample page for every URL. -/
def fetchSample : Str → Except Err Str := fun _ => .ok htmlSample

/-- Temp-file suffix oracle always drawing the string `0`. -/
def suffixZero : Str → Str := fun _ => "0".toList

/-! ## Basic facts about the byte scanner -/

theorem matchesAt_length {pat s : Str} (h : matchesAt pat s = true) : pat.length ≤ s.length := by
  induction pat generalizing s with
  | nil => simp
  | cons p ps ih =>
    cases s with
    | nil => simp [matchesAt] at h
    | cons c cs =>
      simp only [matchesAt, Bool.and_eq_true] at h
      simpa using ih h.2

theorem bIndexO_le_length {pat s : Str} {i : Nat} (h : bIndexO pat s = some i) :
    i + pat.length ≤ s.length := by
  induction s generalizing i with
  | nil =>
    simp only [bIndexO] at h
    split at h
    · next hm => cases h; simpa using matchesAt_length hm
    · cases h
  | cons c cs ih =>
    simp only [bIndexO] at h
    split at h
    · next hm =>
      cases h
      simpa using matchesAt_length hm
    · next hm =>
      cases hi : bIndexO pat cs with
      | none => rw [hi] at h; cases h
      | some j =>
        rw [hi] at h
        simp only [Option.map_some', Option.some.injEq] at h
        subst h
        have := ih hi
        simp only [List.length_cons]
        omega

/-- Evaluation of `extractBetween` when the left token is found: the offset bound
always holds, so the guard is passed. -/
theorem extractBetween_eval_some {s left : Str} (right : Str) {i : Nat}
    (hL : bIndexO left s = some i) :
    extractBetween s left right =
      match bIndexO right (s.drop (i + left.length)) with
      | none => .error (.notFound right)
      | some j => .ok ((s.drop (i + left.length)).take j) := by
  unfold extractBetween
  rw [hL]
  dsimp only
  rw [if_neg (Nat.not_lt.mpr (bIndexO_le_length hL))]

/-- Evaluation of `extractBetween` when the left token is absent. -/
theorem extractBetween_eval_none {s left : Str} (right : Str)
    (hL : bIndexO left s = none) :
    extractBetween s left right = .error (.notFound left) := by
  unfold extractBetween
  rw [hL]

/-- C10: whenever the left token occurs in `s` (`bytes.Index` is not `-1`), its
index plus its length never exceeds the length of `s`, so the "left offset larger
than s" branch of `extractBetween` is unreachable: the function fails exactly when
the left token, or the right token after it, is absent, and otherwise returns the
span strictly between the first occurrence of the left token and the next
occurrence of the right token. -/
theorem C10_extractBetween_spec (s left right : Str) :
    (∀ i, bIndexO left s = some i → i + left.length ≤ s.length) ∧
    (∀ t, extractBetween s left right ≠ .error (.leftOffset t)) ∧
    (bIndexO left s = none → extractBetween s left right = .error (.notFound left)) ∧
    (∀ i, bIndexO left s = some i →
      (bIndexO right (s.drop (i + left.length)) = none →
        extractBetween s left right = .error (.notFound right)) ∧
      (∀ j, bIndexO right (s.drop (i + left.length)) = some j →
        extractBetween s left right = .ok ((s.drop (i + left.length)).take j))) := by
  refine ⟨fun i h => bIndexO_le_length h, ?_, ?_, ?_⟩
  · intro t hcontra
    cases hL : bIndexO left s with
    | none =>
      rw [extractBetween_eval_none right hL] at hcontra
      simp at hcontra
    | some i =>
      rw [extractBetween_eval_some right hL] at hcontra
      rcases hR : bIndexO right (s.drop (i + left.length)) with _ | j <;>
        rw [hR] at hcontra <;> simp at hcontra
  · exact extractBetween_eval_none right
  · intro i hL
    constructor
    · intro hR
      rw [extractBetween_eval_some right hL, hR]
    · intro j hR
      rw [extractBetween_eval_some right hL, hR]

/-- Witness for C10 at `s = "aXb"`, `left = "a"`, `right = "b"`. -/
theorem C10_extractBetween_spec_witness :
    0 + ("a".toList).length ≤ ("aXb".toList).length ∧
    extractBetween ("aXb".toList) ("a".toList) ("b".toList) = .ok ("X".toList) := by
  have h := C10_extractBetween_spec ("aXb".toList) ("a".toList) ("b".toList)
  refine ⟨h.1 0 (by decide), ?_⟩
  have h2 := (h.2.2.2 0 (by decide)).2 1 (by decide)
  exact h2.trans (by decide)

/-! ## Facts about `scrapeActivity` -/

theorem foldl_scanStep_fst (clean : Str) :
    ∀ (l : List (Str × Str)) (acc : Int × Str), acc.1 ≤ (l.foldl (scanStep clean) acc).1 := by
  intro l
  induction l with
  | nil => intro acc; simp
  | cons kv rest ih =>
    intro acc
    refine le_trans ?_ (ih (scanStep clean acc kv))
    unfold scanStep
    cases bIndexO kv.2 clean with
    | none => simp
    | some idx =>
      dsimp only
      split
      · next hlt => exact le_of_lt hlt
      · exact le_rfl

/-- If the `Commits:` token occurs in the container, the scan does not end at `-1`. -/
theorem lastActivityScan_nonneg {clean : Str} {i : Nat}
    (h : bIndexO commitsTok clean = some i) : ¬ (lastActivityScan clean).1 = -1 := by
  intro hEq
  unfold lastActivityScan activityKeys at hEq
  rw [List.foldl_cons] at hEq
  have hstep : scanStep clean (-1, []) (commitsKey, commitsTok) = ((i : Int), commitsKey) := by
    unfold scanStep
    rw [h]
    dsimp only
    rw [if_pos (by omega)]
  rw [hstep] at hEq
  have := foldl_scanStep_fst clean
    [(issuesKey, issuesTok), (prsKey, prsTok), (codeReviewsKey, codeReviewsTok)]
    ((i : Int), commitsKey)
  rw [hEq] at this
  omega

/-- A successful extraction implies the left token was found. -/
theorem extractBetween_ok_finds {s l r v : Str} (h : extractBetween s l r = .ok v) :
    ∃ i, bIndexO l s = some i := by
  cases hL : bIndexO l s with
  | none => rw [extractBetween_eval_none r hL] at h; cases h
  | some i => exact ⟨i, rfl⟩

/-- `atoi` either succeeds or fails naming its input span. -/
theorem atoi_total (v : Str) : atoi v = .error (.atoiErr v) ∨ ∃ n, atoi v = .ok n := by
  unfold atoi
  dsimp only
  split
  · exact Or.inl rfl
  · split
    · split
      · split
        · exact Or.inr ⟨_, rfl⟩
        · exact Or.inl rfl
      · split
        · exact Or.inr ⟨_, rfl⟩
        · exact Or.inl rfl
    · exact Or.inl rfl

/-- Every failure of `atoi` reports the offending span. -/
theorem atoi_error_shape {v : Str} {e : Err} (h : atoi v = .error e) : e = .atoiErr v := by
  rcases atoi_total v with h2 | ⟨n, h2⟩
  · rw [h] at h2
    cases h2
    rfl
  · rw [h] at h2
    cases h2

/-- A successful pass of the extraction loop extracts and parses every key's
span. -/
theorem scrapeFields_ok_sound {clean lastKey : Str} :
    ∀ {l : List (Str × Str)} {fields : List (Str × Int)},
      scrapeFields clean lastKey l = .ok fields →
      ∀ kv ∈ l, ∃ v n, extractBetween clean kv.2
          (if kv.1 = lastKey then closingBracketTok else commaTok) = .ok v ∧ atoi v = .ok n := by
  intro l
  induction l with
  | nil =>
    intro fields _ kv hkv
    simp at hkv
  | cons kt rest ih =>
    intro fields h kv hkv
    obtain ⟨k, t⟩ := kt
    unfold scrapeFields at h
    cases hex : extractBetween clean t (if k = lastKey then closingBracketTok else commaTok) with
    | error e => rw [hex] at h; cases h
    | ok v =>
      rw [hex] at h
      dsimp only at h
      cases hat : atoi v with
      | error e => rw [hat] at h; dsimp only at h; cases h
      | ok n =>
        rw [hat] at h
        dsimp only at h
        cases hre : scrapeFields clean lastKey rest with
        | error e => rw [hre] at h; dsimp only at h; cases h
        | ok acc =>
          rcases List.mem_cons.mp hkv with rfl | hmem
          · exact ⟨v, n, hex, hat⟩
          · exact ih hre kv hmem

/-- If the extraction loop fails although every key's span extracts, the failure is
an `atoi` parse failure on one of the spans. -/
theorem scrapeFields_error_shape {clean lastKey : Str} :
    ∀ {l : List (Str × Str)} {e : Err},
      scrapeFields clean lastKey l = .error e →
      (∀ kv ∈ l, ∃ v, extractBetween clean kv.2
          (if kv.1 = lastKey then closingBracketTok else commaTok) = .ok v) →
      ∃ w, e = .atoiErr w := by
  intro l
  induction l with
  | nil =>
    intro e h _
    cases h
  | cons kt rest ih =>
    intro e h hall
    obtain ⟨k, t⟩ := kt
    obtain ⟨v, hv⟩ := hall (k, t) (List.mem_cons_self _ _)
    unfold scrapeFields at h
    rw [hv] at h
    dsimp only at h
    cases hat : atoi v with
    | error e2 =>
      rw [hat] at h
      dsimp only at h
      cases h
      exact ⟨v, atoi_error_shape hat⟩
    | ok n =>
      rw [hat] at h
      dsimp only at h
      cases hre : scrapeFields clean lastKey rest with
      | error e2 =>
        rw [hre] at h
        dsimp only at h
        cases h
        exact ih hre (fun kv hkv => hall kv (List.mem_cons_of_mem _ hkv))
      | ok acc => rw [hre] at h; dsimp only at h; cases h

/-- The extraction loop materializes only nonzero values. -/
theorem scrapeFields_nonzero {clean lastKey : Str} :
    ∀ {l : List (Str × Str)} {fields : List (Str × Int)},
      scrapeFields clean lastKey l = .ok fields → ∀ p ∈ fields, p.2 ≠ 0 := by
  intro l
  induction l with
  | nil =>
    intro fields h p hp
    cases h
    simp at hp
  | cons kt rest ih =>
    intro fields h p hp
    obtain ⟨k, t⟩ := kt
    unfold scrapeFields at h
    cases hex : extractBetween clean t (if k = lastKey then closingBracketTok else commaTok) with
    | error e => rw [hex] at h; cases h
    | ok v =>
      rw [hex] at h
      dsimp only at h
      cases hat : atoi v with
      | error e => rw [hat] at h; dsimp only at h; cases h
      | ok n =>
        rw [hat] at h
        dsimp only at h
        cases hre : scrapeFields clean lastKey rest with
        | error e => rw [hre] at h; dsimp only at h; cases h
        | ok acc =>
          rw [hre] at h
          dsimp only at h
          cases h
          revert hp
          split
          · next hn =>
            intro hp
            rcases List.mem_cons.mp hp with rfl | hmem
            · exact hn
            · exact ih hre p hmem
          · intro hp
            exact ih hre p hp

theorem lookupD_ite_skip {b : Prop} [Decidable b] {k2 : Str} {v : Int}
    {t : List (Str × Int)} {k : Str} (h : k2 ≠ k) :
    lookupD (if b then (k2, v) :: t else t) k = lookupD t k := by
  split
  · simp [lookupD, h]
  · rfl

theorem lookupD_ite_self {k : Str} {n : Int} {t : List (Str × Int)}
    (h : lookupD t k = 0) :
    lookupD (if n ≠ 0 then (k, n) :: t else t) k = n := by
  split
  · simp [lookupD]
  · next hn =>
    push_neg at hn
    rw [h, hn]

/-- Master evaluation: if the container extracts and all four key spans extract and
parse, the scrape succeeds and each field of the record carries its parsed value
(a zero value is not stored in the intermediate map and is read back as `0`). -/
theorem scrapeActivity_ok_of_spans
    {html raw clean v1 v2 v3 v4 : Str} {n1 n2 n3 n4 : Int}
    (hraw : extractBetween html activityAttr closingTag = .ok raw)
    (hclean : clean = replaceAll quoteUnicode [] raw)
    (h1 : keySpan clean (commitsKey, commitsTok) = .ok v1) (ha1 : atoi v1 = .ok n1)
    (h2 : keySpan clean (issuesKey, issuesTok) = .ok v2) (ha2 : atoi v2 = .ok n2)
    (h3 : keySpan clean (prsKey, prsTok) = .ok v3) (ha3 : atoi v3 = .ok n3)
    (h4 : keySpan clean (codeReviewsKey, codeReviewsTok) = .ok v4) (ha4 : atoi v4 = .ok n4) :
    scrapeActivity html = .ok
      { Handle := [], Year := [], Commits := n1, Issues := n2, Prs := n3,
        CodeReviews := n4 } := by
  subst hclean
  unfold keySpan termTok at h1 h2 h3 h4
  dsimp only at h1 h2 h3 h4
  obtain ⟨i, hi⟩ := extractBetween_ok_finds h1
  unfold scrapeActivity
  rw [hraw]
  dsimp only
  rw [if_neg (lastActivityScan_nonneg hi)]
  unfold activityKeys scrapeFields
  rw [h1]
  dsimp only
  rw [ha1]
  dsimp only
  unfold scrapeFields
  rw [h2]
  dsimp only
  rw [ha2]
  dsimp only
  unfold scrapeFields
  rw [h3]
  dsimp only
  rw [ha3]
  dsimp only
  unfold scrapeFields
  rw [h4]
  dsimp only
  rw [ha4]
  dsimp only
  unfold scrapeFields
  dsimp only
  simp only [Except.ok.injEq, activity.mk.injEq]
  refine ⟨trivial, trivial, ?_, ?_, ?_, ?_⟩
  · exact lookupD_ite_self (by
      rw [lookupD_ite_skip (by decide : issuesKey ≠ commitsKey),
        lookupD_ite_skip (by decide : prsKey ≠ commitsKey),
        lookupD_ite_skip (by decide : codeReviewsKey ≠ commitsKey)]
      rfl)
  · rw [lookupD_ite_skip (by decide : commitsKey ≠ issuesKey)]
    exact lookupD_ite_self (by
      rw [lookupD_ite_skip (by decide : prsKey ≠ issuesKey),
        lookupD_ite_skip (by decide : codeReviewsKey ≠ issuesKey)]
      rfl)
  · rw [lookupD_ite_skip (by decide : commitsKey ≠ prsKey),
      lookupD_ite_skip (by decide : issuesKey ≠ prsKey)]
    exact lookupD_ite_self (by
      rw [lookupD_ite_skip (by decide : codeReviewsKey ≠ prsKey)]
      rfl)
  · rw [lookupD_ite_skip (by decide : commitsKey ≠ codeReviewsKey),
      lookupD_ite_skip (by decide : issuesKey ≠ codeReviewsKey),
      lookupD_ite_skip (by decide : prsKey ≠ codeReviewsKey)]
    exact lookupD_ite_self rfl

theorem digit_val_le {c : Char} (h : c.isDigit = true) : c.toNat - '0'.toNat ≤ 9 := by
  simp only [Char.isDigit, Bool.and_eq_true, decide_eq_true_eq] at h
  have h2 : c.toNat ≤ 57 := h.2
  rw [show ('0').toNat = 48 from rfl]
  omega

theorem digits_foldl_lt :
    ∀ (l : Str), l.all Char.isDigit = true → ∀ acc : Nat,
      l.foldl (fun a c => a * 10 + (c.toNat - '0'.toNat)) acc < (acc + 1) * 10 ^ l.length := by
  intro l
  induction l with
  | nil =>
    intro _ acc
    simp
  | cons c cs ih =>
    intro hall acc
    simp only [List.all_cons, Bool.and_eq_true] at hall
    have hd := digit_val_le hall.1
    simp only [List.foldl_cons, List.length_cons]
    calc cs.foldl (fun a c => a * 10 + (c.toNat - '0'.toNat)) (acc * 10 + (c.toNat - '0'.toNat))
        < (acc * 10 + (c.toNat - '0'.toNat) + 1) * 10 ^ cs.length := ih hall.2 _
      _ ≤ ((acc + 1) * 10) * 10 ^ cs.length := by
          apply Nat.mul_le_mul_right
          omega
      _ = (acc + 1) * 10 ^ (cs.length + 1) := by ring

/-- A nonempty digit-only span of at most 18 characters always parses (Go's fast
path for short inputs: 18 decimal digits cannot overflow a 64-bit `int`). -/
theorem atoi_digits_ok {v : Str} (hne : v ≠ []) (hd : v.all Char.isDigit = true)
    (hlen : v.length ≤ 18) :
    atoi v = .ok ((v.foldl (fun a c => a * 10 + (c.toNat - '0'.toNat)) 0 : Nat) : Int) := by
  cases v with
  | nil => exact absurd rfl hne
  | cons c cs =>
    have hc : c.isDigit = true := by
      simp only [List.all_cons, Bool.and_eq_true] at hd
      exact hd.1
    have hcm : c ≠ '-' ∧ c ≠ '+' := by
      constructor <;> intro hEq <;> rw [hEq] at hc <;> exact absurd hc (by decide)
    have hbound : (c :: cs).foldl (fun a ch => a * 10 + (ch.toNat - '0'.toNat)) 0 < 2 ^ 63 := by
      have h1 := digits_foldl_lt (c :: cs) hd 0
      have h2 : 10 ^ (c :: cs).length ≤ 10 ^ 18 :=
        Nat.pow_le_pow_right (by omega) hlen
      have : (10:Nat) ^ 18 < 2 ^ 63 := by norm_num
      omega
    unfold atoi
    split
    · next heq => exact absurd (List.cons.inj heq.symm).1.symm hcm.1
    · next heq => exact absurd (List.cons.inj heq.symm).1.symm hcm.2
    · dsimp only
      rw [if_neg (by simp), if_pos hd, if_neg (by simp), if_pos hbound]

/-- C6 (amended): for a well-formed container in which every field's value span
extracts and parses as a machine integer — any nonempty digit-only span of at most
18 characters does, by the last conjunct — the scrape succeeds and yields each
labeled field's parsed numeric value; the intermediate map materializes only
nonzero values (middle conjunct), and a zero-valued field, absent from that map, is
read back as `0`.  In particular the container
`Commits:5,Issues:0,Pull requests:12,Code review:3` followed by the closing brace
yields Commits 5, Issues 0, Prs 12, CodeReviews 3 (the witness instantiates it). -/
theorem C6_wellformed_container
    {html raw clean v1 v2 v3 v4 : Str} {n1 n2 n3 n4 : Int}
    (hraw : extractBetween html activityAttr closingTag = .ok raw)
    (hclean : clean = replaceAll quoteUnicode [] raw)
    (h1 : keySpan clean (commitsKey, commitsTok) = .ok v1) (ha1 : atoi v1 = .ok n1)
    (h2 : keySpan clean (issuesKey, issuesTok) = .ok v2) (ha2 : atoi v2 = .ok n2)
    (h3 : keySpan clean (prsKey, prsTok) = .ok v3) (ha3 : atoi v3 = .ok n3)
    (h4 : keySpan clean (codeReviewsKey, codeReviewsTok) = .ok v4) (ha4 : atoi v4 = .ok n4) :
    scrapeActivity html = .ok
      { Handle := [], Year := [], Commits := n1, Issues := n2, Prs := n3,
        CodeReviews := n4 } ∧
    (∀ fields, scrapeFields clean (lastActivityScan clean).2 activityKeys = .ok fields →
      ∀ p ∈ fields, p.2 ≠ 0) ∧
    (∀ v : Str, v ≠ [] → v.all Char.isDigit = true → v.length ≤ 18 →
      ∃ n : Int, atoi v = .ok n) :=
  ⟨scrapeActivity_ok_of_spans hraw hclean h1 ha1 h2 ha2 h3 ha3 h4 ha4,
   fun _ hf => scrapeFields_nonzero hf,
   fun _ hv hd hl => ⟨_, atoi_digits_ok hv hd hl⟩⟩

/-- C6 as stated fails: `99999999999999999999` is a digit-only value span, yet the
scrape fails with a parse (range) error on it instead of yielding the labeled
field values. -/
theorem C6_counterexample :
    ("99999999999999999999".toList).all Char.isDigit = true ∧
    scrapeActivity htmlOverflow = .error (.atoiErr ("99999999999999999999".toList)) :=
  ⟨by decide, by decide⟩

/-- Witness for C6 at the spec's example container. -/
theorem C6_wellformed_container_witness :
    scrapeActivity htmlSample = .ok
      { Handle := [], Year := [], Commits := 5, Issues := 0, Prs := 12,
        CodeReviews := 3 } := by
  exact (@C6_wellformed_container htmlSample
    ("\x7bCommits:5,Issues:0,Pull requests:12,Code review:3\x7d".toList)
    ("\x7bCommits:5,Issues:0,Pull requests:12,Code review:3\x7d".toList)
    ("5".toList) ("0".toList) ("12".toList) ("3".toList) 5 0 12 3
    (by decide) (by decide) (by decide) (by decide) (by decide) (by decide)
    (by decide) (by decide) (by decide) (by decide)).1

/-- C7 (amended): a value span that fails integer parsing — any span containing a
character that is neither a digit nor a single leading sign, and any out-of-range
digit span — makes the scrape fail rather than succeed (so such a document is never
reported as zero activity); when every label's span extracts, the failure is
specifically a parse error naming one of the spans.  (As stated the claim is false:
a leading sign is a non-digit character, yet a span like `-5` parses successfully —
see the counterexample.) -/
theorem C7_nondigit_span_fails
    {html raw clean v k t : Str} {e0 : Err}
    (hraw : extractBetween html activityAttr closingTag = .ok raw)
    (hclean : clean = replaceAll quoteUnicode [] raw)
    (hkv : (k, t) ∈ activityKeys)
    (hspan : keySpan clean (k, t) = .ok v)
    (hbad : atoi v = .error e0) :
    (∀ a, scrapeActivity html ≠ .ok a) ∧
    ((∀ kv ∈ activityKeys, ∃ w, keySpan clean kv = .ok w) →
      ∃ w, scrapeActivity html = .error (.atoiErr w)) := by
  subst hclean
  unfold keySpan termTok at hspan
  dsimp only at hspan
  have hnotok : ∀ a, scrapeActivity html ≠ .ok a := by
    intro a hok
    unfold scrapeActivity at hok
    rw [hraw] at hok
    dsimp only at hok
    split at hok
    · cases hok
    · cases hsf : scrapeFields (replaceAll quoteUnicode [] raw)
          (lastActivityScan (replaceAll quoteUnicode [] raw)).2 activityKeys with
      | error e => rw [hsf] at hok; dsimp only at hok; cases hok
      | ok fields =>
        obtain ⟨v2, nv, hex2, hat2⟩ := scrapeFields_ok_sound hsf (k, t) hkv
        dsimp only at hex2
        rw [hspan] at hex2
        cases hex2
        rw [hbad] at hat2
        cases hat2
  refine ⟨hnotok, ?_⟩
  intro hall
  have hall2 : ∀ kv ∈ activityKeys, ∃ w, extractBetween (replaceAll quoteUnicode [] raw) kv.2
      (if kv.1 = (lastActivityScan (replaceAll quoteUnicode [] raw)).2
       then closingBracketTok else commaTok) = .ok w := by
    intro kv hkvm
    obtain ⟨w, hw⟩ := hall kv hkvm
    unfold keySpan termTok at hw
    exact ⟨w, hw⟩
  obtain ⟨i, hi⟩ : ∃ i, bIndexO commitsTok (replaceAll quoteUnicode [] raw) = some i := by
    obtain ⟨w, hw⟩ := hall2 (commitsKey, commitsTok) (by decide)
    exact extractBetween_ok_finds hw
  cases hsf : scrapeFields (replaceAll quoteUnicode [] raw)
      (lastActivityScan (replaceAll quoteUnicode [] raw)).2 activityKeys with
  | ok fields =>
    exfalso
    obtain ⟨v2, nv, hex2, hat2⟩ := scrapeFields_ok_sound hsf (k, t) hkv
    dsimp only at hex2
    rw [hspan] at hex2
    cases hex2
    rw [hbad] at hat2
    cases hat2
  | error e =>
    obtain ⟨w, hw⟩ := scrapeFields_error_shape hsf hall2
    refine ⟨w, ?_⟩
    unfold scrapeActivity
    rw [hraw]
    dsimp only
    rw [if_neg (lastActivityScan_nonneg hi)]
    rw [hsf]
    dsimp only
    rw [hw]

/-- C7 as stated fails: the span `-5` of the `Commits` field contains the non-digit
character `-`, yet `strconv.Atoi` accepts the signed span and the scrape succeeds
with a negative metric instead of returning a parse error. -/
theorem C7_counterexample :
    keySpan (replaceAll quoteUnicode []
        ("\x7bCommits:-5,Issues:1,Pull requests:2,Code review:3\x7d".toList))
      (commitsKey, commitsTok) = .ok ("-5".toList) ∧
    ("-5".toList).all Char.isDigit = false ∧
    scrapeActivity htmlSigned = .ok
      { Handle := [], Year := [], Commits := -5, Issues := 1, Prs := 2,
        CodeReviews := 3 } :=
  ⟨by decide, by decide, by decide⟩

/-- Witness for C7 at the container whose `Commits` span is `5x`. -/
theorem C7_nondigit_span_fails_witness :
    scrapeActivity htmlBadSpan ≠ .ok
      { Handle := [], Year := [], Commits := 0, Issues := 0, Prs := 0,
        CodeReviews := 0 } ∧
    scrapeActivity htmlBadSpan = .error (.atoiErr ("5x".toList)) := by
  refine ⟨?_, by decide⟩
  exact (@C7_nondigit_span_fails htmlBadSpan
    ("\x7bCommits:5x,Issues:1,Pull requests:2,Code review:3\x7d".toList)
    ("\x7bCommits:5x,Issues:1,Pull requests:2,Code review:3\x7d".toList)
    ("5x".toList) commitsKey commitsTok (.atoiErr ("5x".toList))
    (by decide) (by decide) (by decide) (by decide) (by decide)).1 _

/-- C8 (amended): a container in which none of the four labels occurs makes the
scrape fail with the aggregated `did not find any activityKeys` extraction error,
which names the container contents — not the first searched label (the
counterexample shows the two errors differ). -/
theorem C8_missing_labels
    {html raw clean : Str}
    (hraw : extractBetween html activityAttr closingTag = .ok raw)
    (hclean : clean = replaceAll quoteUnicode [] raw)
    (hnone : ∀ kv ∈ activityKeys, bIndexO kv.2 clean = none) :
    scrapeActivity html = .error (.noActivityKeys clean) := by
  subst hclean
  have e1 := hnone (commitsKey, commitsTok) (by decide)
  have e2 := hnone (issuesKey, issuesTok) (by decide)
  have e3 := hnone (prsKey, prsTok) (by decide)
  have e4 := hnone (codeReviewsKey, codeReviewsTok) (by decide)
  dsimp only at e1 e2 e3 e4
  have hscan : lastActivityScan (replaceAll quoteUnicode [] raw) = (-1, []) := by
    simp only [lastActivityScan, activityKeys, List.foldl_cons, List.foldl_nil,
      scanStep, e1, e2, e3, e4]
  unfold scrapeActivity
  rw [hraw]
  dsimp only
  rw [hscan]
  simp

/-- C8 as stated fails: on a label-free container the error is the aggregated
`noActivityKeys` error carrying the container, not the `patternNotFound` error
naming the first searched label. -/
theorem C8_counterexample :
    scrapeActivity htmlNoKeys = .error (.noActivityKeys ("hello".toList)) ∧
    Err.noActivityKeys ("hello".toList) ≠ Err.notFound commitsTok :=
  ⟨by decide, by decide⟩

/-- Witness for C8 at the label-free container `hello`. -/
theorem C8_missing_labels_witness :
    scrapeActivity htmlNoKeys = .error (.noActivityKeys ("hello".toList)) := by
  exact @C8_missing_labels htmlNoKeys ("hello".toList) ("hello".toList)
    (by decide) (by decide) (by decide)

/-- C9 (amended): the four metrics of a successfully scraped record are exactly the
integers parsed from the document's value spans — `scrapeActivity` applies no
clamping or range check — so they lie in `[0,100]` precisely when the parsed span
values do, as GitHub's percentage data guarantees; the tagging performed by
`parseActivity` leaves the metrics unchanged.  (As stated the claim is false: a
document with span `200` yields a successful record outside the range — see the
counterexample.) -/
theorem C9_metrics_in_range
    {html raw clean v1 v2 v3 v4 : Str} {n1 n2 n3 n4 : Int}
    (hraw : extractBetween html activityAttr closingTag = .ok raw)
    (hclean : clean = replaceAll quoteUnicode [] raw)
    (h1 : keySpan clean (commitsKey, commitsTok) = .ok v1) (ha1 : atoi v1 = .ok n1)
    (h2 : keySpan clean (issuesKey, issuesTok) = .ok v2) (ha2 : atoi v2 = .ok n2)
    (h3 : keySpan clean (prsKey, prsTok) = .ok v3) (ha3 : atoi v3 = .ok n3)
    (h4 : keySpan clean (codeReviewsKey, codeReviewsTok) = .ok v4) (ha4 : atoi v4 = .ok n4)
    (hb1 : 0 ≤ n1 ∧ n1 ≤ 100) (hb2 : 0 ≤ n2 ∧ n2 ≤ 100)
    (hb3 : 0 ≤ n3 ∧ n3 ≤ 100) (hb4 : 0 ≤ n4 ∧ n4 ≤ 100) :
    (∀ a, scrapeActivity html = .ok a →
      (0 ≤ a.Commits ∧ a.Commits ≤ 100) ∧ (0 ≤ a.Issues ∧ a.Issues ≤ 100) ∧
      (0 ≤ a.Prs ∧ a.Prs ≤ 100) ∧ (0 ≤ a.CodeReviews ∧ a.CodeReviews ≤ 100)) ∧
    (∀ (fetch : Str → Except Err Str) (handle year : Str) (a : activity),
      fetch (activityURL handle year) = .ok html →
      parseActivity fetch handle year = .ok a →
      (0 ≤ a.Commits ∧ a.Commits ≤ 100) ∧ (0 ≤ a.Issues ∧ a.Issues ≤ 100) ∧
      (0 ≤ a.Prs ∧ a.Prs ≤ 100) ∧ (0 ≤ a.CodeReviews ∧ a.CodeReviews ≤ 100)) := by
  have hok := scrapeActivity_ok_of_spans hraw hclean h1 ha1 h2 ha2 h3 ha3 h4 ha4
  have hfirst : ∀ a, scrapeActivity html = .ok a →
      (0 ≤ a.Commits ∧ a.Commits ≤ 100) ∧ (0 ≤ a.Issues ∧ a.Issues ≤ 100) ∧
      (0 ≤ a.Prs ∧ a.Prs ≤ 100) ∧ (0 ≤ a.CodeReviews ∧ a.CodeReviews ≤ 100) := by
    intro a ha
    rw [hok] at ha
    cases ha
    exact ⟨hb1, hb2, hb3, hb4⟩
  refine ⟨hfirst, ?_⟩
  intro fetch handle year a hf hp
  unfold parseActivity at hp
  rw [hf] at hp
  dsimp only at hp
  rw [hok] at hp
  dsimp only at hp
  cases hp
  exact ⟨hb1, hb2, hb3, hb4⟩

/-- C9 as stated fails: a document whose `Commits` span is `200` scrapes
successfully into a record with a metric outside `[0,100]`. -/
theorem C9_counterexample :
    scrapeActivity htmlOver100 = .ok
      { Handle := [], Year := [], Commits := 200, Issues := 1, Prs := 2,
        CodeReviews := 3 } ∧
    ¬ ((200:Int) ≤ 100) :=
  ⟨by decide, by decide⟩

/-- Witness for C9 at the sample container (values 5, 0, 12, 3). -/
theorem C9_metrics_in_range_witness :
    ((0:Int) ≤ 5 ∧ (5:Int) ≤ 100) ∧ ((0:Int) ≤ 0 ∧ (0:Int) ≤ 100) ∧
    ((0:Int) ≤ 12 ∧ (12:Int) ≤ 100) ∧ ((0:Int) ≤ 3 ∧ (3:Int) ≤ 100) := by
  exact (@C9_metrics_in_range htmlSample
    ("\x7bCommits:5,Issues:0,Pull requests:12,Code review:3\x7d".toList)
    ("\x7bCommits:5,Issues:0,Pull requests:12,Code review:3\x7d".toList)
    ("5".toList) ("0".toList) ("12".toList) ("3".toList) 5 0 12 3
    (by decide) (by decide) (by decide) (by decide) (by decide) (by decide)
    (by decide) (by decide) (by decide) (by decide)
    (by decide) (by decide) (by decide) (by decide)).1
    { Handle := [], Year := [], Commits := 5, Issues := 0, Prs := 12, CodeReviews := 3 }
    (by decide)

/-! ## Facts about the coordinate mapper -/

theorem exp_half_ge : (3/2 : ℝ) ≤ Real.exp (1/2) := by
  have := Real.add_one_le_exp (1/2 : ℝ)
  linarith

theorem exp_two_gt_five : (5 : ℝ) < Real.exp 2 := by
  have h1 : Real.exp (2:ℝ) = Real.exp (1/2) ^ (4:ℕ) := by
    rw [← Real.exp_nat_mul]
    norm_num
  have h2 : ((3:ℝ)/2) ^ (4:ℕ) ≤ Real.exp (1/2) ^ (4:ℕ) :=
    pow_le_pow_left₀ (by norm_num) exp_half_ge 4
  have h3 : ((5:ℝ)) < ((3:ℝ)/2) ^ (4:ℕ) := by norm_num
  rw [h1]
  linarith

theorem exp_thousandth_le : Real.exp (1/1000 : ℝ) ≤ 1000/999 := by
  have h := Real.add_one_le_exp (-(1/1000) : ℝ)
  have hexp_pos := Real.exp_pos (1/1000 : ℝ)
  have h2 : (999/1000 : ℝ) ≤ (Real.exp (1/1000))⁻¹ := by
    rw [← Real.exp_neg]
    linarith
  have h4 : Real.exp (1/1000) * (999/1000) ≤ Real.exp (1/1000) * (Real.exp (1/1000))⁻¹ :=
    mul_le_mul_of_nonneg_left h2 (le_of_lt hexp_pos)
  rw [mul_inv_cancel₀ (ne_of_gt hexp_pos)] at h4
  linarith

theorem exp_thousandth_ge : (1001/1000 : ℝ) ≤ Real.exp (1/1000 : ℝ) := by
  have := Real.add_one_le_exp (1/1000 : ℝ)
  linarith

set_option maxRecDepth 4000 in
theorem exp_85_lt : Real.exp (8/5 : ℝ) < 675/136 := by
  have h1 : Real.exp (8/5 : ℝ) = Real.exp (1/1000) ^ (1600:ℕ) := by
    rw [← Real.exp_nat_mul]
    norm_num
  have h2 : Real.exp (1/1000) ^ (1600:ℕ) ≤ (1000/999 : ℝ) ^ (1600:ℕ) :=
    pow_le_pow_left₀ (le_of_lt (Real.exp_pos _)) exp_thousandth_le 1600
  have hN : (1000:ℕ) ^ 1600 * 136 < 675 * 999 ^ 1600 := by decide
  have h3 : ((1000/999 : ℝ)) ^ (1600:ℕ) < 675/136 := by
    rw [div_pow, div_lt_div_iff₀ (by positivity) (by norm_num)]
    exact_mod_cast hN
  rw [h1]
  linarith

set_option maxRecDepth 4000 in
theorem exp_85_gt : (675/137 : ℝ) < Real.exp (8/5 : ℝ) := by
  have h1 : Real.exp (8/5 : ℝ) = Real.exp (1/1000) ^ (1600:ℕ) := by
    rw [← Real.exp_nat_mul]
    norm_num
  have h2 : ((1001/1000 : ℝ)) ^ (1600:ℕ) ≤ Real.exp (1/1000) ^ (1600:ℕ) :=
    pow_le_pow_left₀ (by norm_num) exp_thousandth_ge 1600
  have hN : (675:ℕ) * 1000 ^ 1600 < 137 * 1001 ^ 1600 := by decide
  have h3 : (675/137 : ℝ) < ((1001/1000 : ℝ)) ^ (1600:ℕ) := by
    rw [div_pow, div_lt_div_iff₀ (by norm_num) (by positivity)]
    exact_mod_cast hN
  rw [h1]
  linarith

/-- C4: the mapper computes offset(n) = axisLength * ratio(n) with
ratio(n) = 1 - e^(-n/50), snapped to 1 above the threshold; with axisLength 67.5
and threshold 0.8: offset(0) = 0; at n = 80 the ratio (about 0.7981) stays below
the threshold, so the offset is unsaturated, equals 67.5 * (1 - e^(-8/5)), and lies
strictly between 53.8 and 53.9 (about 53.87); at n = 100 the ratio (about 0.8647)
exceeds the threshold and the offset saturates to exactly 67.5. -/
theorem C4_cappedDelta_values :
    cappedDelta 0 67.5 0.8 = 0 ∧
    (1 - Real.exp ((80:ℝ) / -50) < 0.8 ∧
      cappedDelta 80 67.5 0.8 = 67.5 * (1 - Real.exp ((80:ℝ) / -50)) ∧
      53.8 < cappedDelta 80 67.5 0.8 ∧ cappedDelta 80 67.5 0.8 < 53.9) ∧
    (0.8 < 1 - Real.exp ((100:ℝ) / -50) ∧ cappedDelta 100 67.5 0.8 = 67.5) := by
  have e85pos := Real.exp_pos (8/5 : ℝ)
  have hinv_lt : (Real.exp (8/5 : ℝ))⁻¹ < 137/675 := by
    have h := one_div_lt_one_div_of_lt (by norm_num : (0:ℝ) < 675/137) exp_85_gt
    rw [inv_eq_one_div]
    calc 1/Real.exp (8/5 : ℝ) < 1/(675/137) := h
      _ = 137/675 := by norm_num
  have hinv_gt : (136/675 : ℝ) < (Real.exp (8/5 : ℝ))⁻¹ := by
    have h := one_div_lt_one_div_of_lt e85pos exp_85_lt
    rw [inv_eq_one_div]
    calc (136/675 : ℝ) = 1/(675/136) := by norm_num
      _ < 1/Real.exp (8/5 : ℝ) := h
  have hr80 : Real.exp ((80:ℝ) / -50) = (Real.exp (8/5 : ℝ))⁻¹ := by
    rw [show ((80:ℝ) / -50) = -(8/5) by norm_num, Real.exp_neg]
  have hr100 : Real.exp ((100:ℝ) / -50) = (Real.exp (2 : ℝ))⁻¹ := by
    rw [show ((100:ℝ) / -50) = -(2:ℝ) by norm_num, Real.exp_neg]
  have h100inv : (Real.exp (2:ℝ))⁻¹ < 1/5 := by
    have h := one_div_lt_one_div_of_lt (by norm_num : (0:ℝ) < 5) exp_two_gt_five
    rw [inv_eq_one_div]
    exact h
  have hratio80 : 1 - Real.exp ((80:ℝ) / -50) < 0.8 := by
    rw [hr80]
    linarith
  have hratio100 : (0.8:ℝ) < 1 - Real.exp ((100:ℝ) / -50) := by
    rw [hr100]
    have := Real.exp_pos (2:ℝ)
    linarith
  refine ⟨?_, ⟨hratio80, ?_, ?_, ?_⟩, ⟨hratio100, ?_⟩⟩
  · unfold cappedDelta
    rw [show ((0:ℝ) / -50) = 0 by norm_num, Real.exp_zero]
    norm_num
  · unfold cappedDelta
    dsimp only
    rw [if_neg (by push_neg; linarith)]
  · unfold cappedDelta
    dsimp only
    rw [if_neg (by push_neg; linarith)]
    rw [hr80]
    nlinarith
  · unfold cappedDelta
    dsimp only
    rw [if_neg (by push_neg; linarith)]
    rw [hr80]
    nlinarith
  · unfold cappedDelta
    dsimp only
    rw [if_pos (by exact hratio100)]
    norm_num

/-- C5: each offset is monotone non-decreasing in its metric (for the nonnegative
axis length used), and once the raw ratio crosses the threshold the offset
saturates at the fixed maximum `m` and stays there for every larger metric
value. -/
theorem C5_cappedDelta_monotone_saturating
    (n1 n2 m thresh : ℝ) (hm : 0 ≤ m) (h : n1 ≤ n2) :
    cappedDelta n1 m thresh ≤ cappedDelta n2 m thresh ∧
    (thresh < 1 - Real.exp (n1 / -50) →
      cappedDelta n1 m thresh = m ∧ cappedDelta n2 m thresh = m) := by
  have hdivs : n2 / -50 ≤ n1 / -50 := by linarith
  have hratio : 1 - Real.exp (n1 / -50) ≤ 1 - Real.exp (n2 / -50) := by
    have := Real.exp_le_exp.mpr hdivs
    linarith
  have hlt1 : ∀ n : ℝ, 1 - Real.exp (n / -50) < 1 := by
    intro n
    have := Real.exp_pos (n / -50)
    linarith
  constructor
  · unfold cappedDelta
    dsimp only
    split
    · next hc1 =>
      rw [if_pos (lt_of_lt_of_le hc1 hratio)]
    · next hc1 =>
      split
      · next hc2 =>
        have h1 : 1 - Real.exp (n1 / -50) ≤ 1 := le_of_lt (hlt1 n1)
        exact mul_le_mul_of_nonneg_left h1 hm
      · next hc2 =>
        exact mul_le_mul_of_nonneg_left hratio hm
  · intro hth
    unfold cappedDelta
    dsimp only
    constructor
    · rw [if_pos hth]
      ring
    · rw [if_pos (lt_of_lt_of_le hth hratio)]
      ring

/-- Witness for C5 at n1 = 3, n2 = 5, m = 67.5, thresh = 0.8. -/
theorem C5_cappedDelta_monotone_saturating_witness :
    (0:ℝ) ≤ 67.5 ∧ (3:ℝ) ≤ 5 ∧
    cappedDelta 3 67.5 0.8 ≤ cappedDelta 5 67.5 0.8 := by
  refine ⟨by norm_num, by norm_num, ?_⟩
  exact (C5_cappedDelta_monotone_saturating 3 5 67.5 0.8 (by norm_num) (by norm_num)).1

/-! ## Facts about the pipeline -/

theorem isOkE_true_iff {α : Type} {e : Except Err α} : isOkE e = true ↔ ∃ a, e = .ok a := by
  cases e <;> simp [isOkE]

theorem isOkE_false_iff {α : Type} {e : Except Err α} :
    isOkE e = false ↔ e.toOption = none := by
  cases e <;> simp [isOkE, Except.toOption]

theorem pairwise_imp_mem {α : Type} {R S : α → α → Prop} :
    ∀ {l : List α}, (∀ a ∈ l, ∀ b ∈ l, R a b → S a b) → l.Pairwise R → l.Pairwise S := by
  intro l
  induction l with
  | nil =>
    intro _ _
    exact List.Pairwise.nil
  | cons a rest ih =>
    intro h hp
    rcases List.pairwise_cons.mp hp with ⟨hhead, htail⟩
    refine List.pairwise_cons.mpr ⟨?_, ?_⟩
    · intro b hb
      exact h a (List.mem_cons_self _ _) b (List.mem_cons_of_mem _ hb) (hhead b hb)
    · exact ih
        (fun x hx y hy hr => h x (List.mem_cons_of_mem _ hx) y (List.mem_cons_of_mem _ hy) hr)
        htail

theorem filterMap_eq_map_getD {α β : Type} [Inhabited β] (f : α → Option β) (l : List α) :
    l.filterMap f = (l.filter (fun a => (f a).isSome)).map (fun a => (f a).getD default) := by
  induction l with
  | nil => rfl
  | cons a rest ih =>
    cases hf : f a with
    | none => simp [List.filterMap_cons, List.filter_cons, hf, ih]
    | some b => simp [List.filterMap_cons, List.filter_cons, hf, ih]

theorem str_lt_iff_lex {l1 l2 : Str} : l1 < l2 ↔ List.Lex (· < ·) l1 l2 := Iff.rfl

/-- Appending arbitrary tails preserves strict lexicographic order, provided the
smaller string is not a strict prefix of the larger one. -/
theorem lex_append_of_lex {y1 y2 : Str} (a b : Str)
    (hlex : List.Lex (· < ·) y1 y2) (hnp : matchesAt y1 y2 = true → y1 = y2) :
    List.Lex (· < ·) (y1 ++ a) (y2 ++ b) := by
  revert hnp
  induction hlex with
  | nil =>
    intro hnp
    exact absurd (hnp rfl) (by simp)
  | @cons c l1 l2 htail ih =>
    intro hnp
    refine List.Lex.cons (ih ?_)
    intro hm
    have h2 := hnp (by simp [matchesAt, hm])
    exact (List.cons.inj h2).2
  | @rel c1 l1 c2 l2 hcc =>
    intro _
    exact List.Lex.rel hcc

/-- Monotonicity of `pre ++ y ++ tail-of-y` in the year `y`, for non-prefix pairs
with year-determined tails. -/
theorem str_concat_le {pre y1 y2 t1 t2 : Str}
    (hle : y1 ≤ y2) (hnp : matchesAt y1 y2 = true → y1 = y2)
    (heqt : y1 = y2 → t1 = t2) :
    pre ++ y1 ++ t1 ≤ pre ++ y2 ++ t2 := by
  rcases lt_or_eq_of_le hle with hlt | hEq
  · have hlex : List.Lex (· < ·) (y1 ++ t1) (y2 ++ t2) :=
      lex_append_of_lex t1 t2 (str_lt_iff_lex.mp hlt) hnp
    rw [List.append_assoc, List.append_assoc]
    exact le_of_lt (str_lt_iff_lex.mpr (List.Lex.append_left _ hlex pre))
  · subst hEq
    rw [heqt rfl]

theorem parseActivity_ok_fields {fetch : Str → Except Err Str} {handle year : Str}
    {a : activity} (h : parseActivity fetch handle year = .ok a) :
    a.Handle = handle ∧ a.Year = year := by
  unfold parseActivity at h
  cases hf : fetch (activityURL handle year) with
  | error e => rw [hf] at h; cases h
  | ok body =>
    rw [hf] at h
    dsimp only at h
    cases hs : scrapeActivity body with
    | error e => rw [hs] at h; dsimp only at h; cases h
    | ok a0 =>
      rw [hs] at h
      dsimp only at h
      cases h
      exact ⟨rfl, rfl⟩

theorem genActivitiesSeq_eq (fetch : Str → Except Err Str) (handle : Str)
    (years : List Str) :
    genActivitiesSeq fetch handle years =
      (years.filter (fun y => isOkE (parseActivity fetch handle y))).map
        (fun y => ((parseActivity fetch handle y).toOption).getD default) := by
  unfold genActivitiesSeq
  rw [filterMap_eq_map_getD]
  congr 1
  apply List.filter_congr
  intro y _
  cases parseActivity fetch handle y <;> simp [isOkE, Except.toOption]

theorem genSVG_genGraph_eq (dir : Str) (suffix : Str → Str) (svgOk : graph → Bool)
    (acts : List activity) (hok : ∀ g, svgOk g = true) :
    genSVG dir suffix svgOk (genGraph acts) =
      acts.map (fun a => svgStem dir suffix a.Handle a.Year ++ svgExt) := by
  induction acts with
  | nil => rfl
  | cons a rest ih =>
    simp only [genGraph, genSVG, List.filterMap_cons, coordinates, svgGo, hok,
      List.map_cons, if_true] at ih ⊢
    rw [← ih]

theorem jpgEmitted_eq_filter_map (convertOk : Str → Bool) (svgs : List Str) :
    jpgEmitted convertOk svgs = (svgs.filter convertOk).map (replaceFirst svgExt jpgExt) := by
  induction svgs with
  | nil => rfl
  | cons s rest ih =>
    simp only [jpgEmitted, List.filterMap_cons, jpgGo, List.filter_cons] at ih ⊢
    cases hc : convertOk s <;> simp [hc, ih]

theorem jpgEmitted_all_ok (convertOk : Str → Bool) (svgs : List Str)
    (hok : ∀ s ∈ svgs, convertOk s = true) :
    jpgEmitted convertOk svgs = svgs.map (replaceFirst svgExt jpgExt) := by
  rw [jpgEmitted_eq_filter_map, List.filter_eq_self.mpr hok]

theorem length_filter_add_length_filter_not {α : Type} (p : α → Bool) (l : List α) :
    (l.filter p).length + (l.filter (fun a => !(p a))).length = l.length := by
  induction l with
  | nil => rfl
  | cons a rest ih =>
    cases h : p a <;> simp [List.filter_cons, h] <;> omega

/-- `gif` never produces the pipeline's empty-result error (its own failures are
the argument checks and the external conversion failure). -/
theorem gifGo_ne_emptyResult (jpgs : List Str) (handle speed resize : Str)
    (gifOk : Bool) (h2 : Str) :
    gifGo jpgs handle speed resize gifOk ≠ .error (.emptyResult h2) := by
  intro hcontra
  unfold gifGo at hcontra
  split at hcontra
  · simp at hcontra
  · split at hcontra
    · simp at hcontra
    · split at hcontra
      · simp at hcontra
      · split at hcontra
        · simp at hcontra
        · simp at hcontra

/-- With a nonempty period set, the run reports the empty-result error exactly
when it completes with the sink having drained zero frames (shared between the
claims about the sink); a run that blocks in the sink reports nothing at all. -/
theorem generateGIFRun_emptyResult_iff
    (fetch : Str → Except Err Str) (suffix : Str → Str) (svgOk : graph → Bool)
    (convertOk : Str → Bool) (gifOk : Bool) (handle dir speed resize : Str)
    (years : List Str) (sched1 : List activity → List activity)
    (sched2 : List Str → List Str) (hyears : years ≠ []) :
    generateGIFRun fetch suffix svgOk convertOk gifOk handle dir speed resize years
        sched1 sched2 = some (.error (.emptyResult handle)) ↔
      pipelineFrames fetch suffix svgOk convertOk handle dir years sched1 sched2 =
        some [] := by
  have hne : ¬(years.isEmpty = true) := by
    simp [List.isEmpty_iff]
    exact hyears
  unfold generateGIFRun
  rw [if_neg hne]
  cases hfr : pipelineFrames fetch suffix svgOk convertOk handle dir years
      sched1 sched2 with
  | none => simp
  | some sorted =>
    dsimp only
    rw [Option.some_inj, Option.some_inj]
    by_cases hs : sorted = []
    · subst hs
      simp
    · rw [if_neg (by simp [List.isEmpty_iff]; exact hs)]
      constructor
      · intro h
        exact absurd h (gifGo_ne_emptyResult _ _ _ _ _ _)
      · intro h
        exact absurd h hs

/-- When every per-period fetch/parse of a nonempty period set fails, no SVG at
all arrives at `genJPG`, whose join barrier of `years.length` therefore never
completes: the jpg channel is never closed and the sink's drain loop blocks
forever. -/
theorem pipelineFrames_none_of_all_fail
    (fetch : Str → Except Err Str) (suffix : Str → Str) (svgOk : graph → Bool)
    (convertOk : Str → Bool) (handle dir : Str) (years : List Str)
    (sched1 : List activity → List activity) (sched2 : List Str → List Str)
    (hyears : years ≠ [])
    (hall : ∀ y ∈ years, isOkE (parseActivity fetch handle y) = false)
    (hs1 : ∀ l, List.Perm (sched1 l) l) :
    pipelineFrames fetch suffix svgOk convertOk handle dir years sched1 sched2 =
      none := by
  have hseq : genActivitiesSeq fetch handle (genYears years) = [] := by
    unfold genActivitiesSeq genYears
    rw [List.filterMap_eq_nil]
    intro y hy
    exact isOkE_false_iff.mp (hall y hy)
  unfold pipelineFrames genJPG
  rw [hseq]
  rw [(hs1 []).eq_nil]
  rw [show genSVG dir suffix svgOk (genGraph []) = [] from rfl]
  rw [if_neg (fun hc => hyears (List.length_eq_zero.mp hc.symm))]

/-- When every per-period fetch/parse succeeds and the SVG stage succeeds on
every item, all `years.length` items reach `genJPG`, its join barrier completes,
the jpg channel is closed, and the sink returns the sorted surviving
conversions. -/
theorem pipelineFrames_complete
    (fetch : Str → Except Err Str) (suffix : Str → Str) (svgOk : graph → Bool)
    (convertOk : Str → Bool) (handle dir : Str) (years : List Str)
    (sched1 : List activity → List activity) (sched2 : List Str → List Str)
    (hs1 : ∀ l, List.Perm (sched1 l) l)
    (hsvg : ∀ g, svgOk g = true)
    (hall : ∀ y ∈ years, isOkE (parseActivity fetch handle y) = true) :
    pipelineFrames fetch suffix svgOk convertOk handle dir years sched1 sched2 =
      some (bundleJPGs (sched2 (jpgEmitted convertOk
        (genSVG dir suffix svgOk
          (genGraph (sched1 (genActivitiesSeq fetch handle (genYears years)))))))) := by
  have hlen : (genSVG dir suffix svgOk
      (genGraph (sched1 (genActivitiesSeq fetch handle (genYears years))))).length =
      years.length := by
    rw [genSVG_genGraph_eq _ _ _ _ hsvg, List.length_map, (hs1 _).length_eq,
      genActivitiesSeq_eq, List.length_map]
    unfold genYears
    rw [List.filter_eq_self.mpr hall]
  unfold pipelineFrames genJPG
  rw [if_pos hlen]

/-- C3 (amended): with a nonempty requested period set, the run reports the
"Failed to create a single JPG" (empty-result) error exactly when it completes
with the sink having drained zero frames — in that case `gif` is never invoked,
so no artifact is produced, and a completing run with at least one frame never
raises it.  The zero-frame completion is reachable: when every requested period
survives to the render stage but every SVG→JPG conversion fails, the failed
conversions still signal `genJPG`'s join barrier, the channel closes empty, and
the run returns exactly that error.  But the claim's own example — every
per-period fetch failing — does not behave as claimed: `genJPG`'s barrier is
keyed to the requested period count while only arriving items signal it, so with
no SVG arriving the jpg channel is never closed and the run blocks forever in
the sink, reporting neither the empty-result error nor anything else. -/
theorem C3_empty_result
    (fetch : Str → Except Err Str) (suffix : Str → Str) (svgOk : graph → Bool)
    (convertOk : Str → Bool) (gifOk : Bool) (handle dir speed resize : Str)
    (years : List Str) (sched1 : List activity → List activity)
    (sched2 : List Str → List Str) (hyears : years ≠ [])
    (hs1 : ∀ l, List.Perm (sched1 l) l) (hs2 : ∀ l, List.Perm (sched2 l) l) :
    (generateGIFRun fetch suffix svgOk convertOk gifOk handle dir speed resize years
        sched1 sched2 = some (.error (.emptyResult handle)) ↔
      pipelineFrames fetch suffix svgOk convertOk handle dir years sched1 sched2 =
        some []) ∧
    ((∀ y ∈ years, isOkE (parseActivity fetch handle y) = true) →
      (∀ g, svgOk g = true) → (∀ s, convertOk s = false) →
      pipelineFrames fetch suffix svgOk convertOk handle dir years sched1 sched2 =
        some [] ∧
      generateGIFRun fetch suffix svgOk convertOk gifOk handle dir speed resize years
        sched1 sched2 = some (.error (.emptyResult handle))) ∧
    ((∀ y ∈ years, isOkE (parseActivity fetch handle y) = false) →
      pipelineFrames fetch suffix svgOk convertOk handle dir years sched1 sched2 =
        none ∧
      generateGIFRun fetch suffix svgOk convertOk gifOk handle dir speed resize years
        sched1 sched2 = none) := by
  have hiff := generateGIFRun_emptyResult_iff fetch suffix svgOk convertOk gifOk handle
    dir speed resize years sched1 sched2 hyears
  have hne : ¬(years.isEmpty = true) := by
    simp [List.isEmpty_iff]
    exact hyears
  refine ⟨hiff, ?_, ?_⟩
  · intro hall hsvg hconv
    have hframes : pipelineFrames fetch suffix svgOk convertOk handle dir years
        sched1 sched2 = some [] := by
      rw [pipelineFrames_complete fetch suffix svgOk convertOk handle dir years
        sched1 sched2 hs1 hsvg hall]
      have hnil : jpgEmitted convertOk
          (genSVG dir suffix svgOk
            (genGraph (sched1 (genActivitiesSeq fetch handle (genYears years))))) = [] := by
        rw [jpgEmitted_eq_filter_map]
        rw [List.filter_eq_nil.mpr (fun a _ => by simp [hconv a])]
        rfl
      rw [hnil, (hs2 []).eq_nil]
      rfl
    exact ⟨hframes, hiff.mpr hframes⟩
  · intro hall
    have hnone := pipelineFrames_none_of_all_fail fetch suffix svgOk convertOk handle
      dir years sched1 sched2 hyears hall hs1
    refine ⟨hnone, ?_⟩
    unfold generateGIFRun
    rw [if_neg hne, hnone]

/-- C3 as stated fails on its own example: in a two-period run where every fetch
fails with a network error, the command does not fail with the empty-result
error — it never returns at all (the jpg channel is never closed and the sink
blocks forever), and in particular its outcome is not the empty-result error. -/
theorem C3_counterexample :
    generateGIFRun (fun u => .error (.network u)) suffixZero (fun _ => true)
      (fun _ => true) true ("h".toList) ("out".toList) ("100".toList) ("50%".toList)
      ["2016".toList, "2017".toList] id id = none ∧
    (none : Option (Except Err Str)) ≠ some (.error (.emptyResult ("h".toList))) :=
  ⟨by decide, by decide⟩

/-- Witness for C3: two periods, every fetch succeeding and every SVG→JPG
conversion failing — the barrier completes, the sink drains an empty channel, and
the run returns the empty-result error. -/
theorem C3_empty_result_witness :
    pipelineFrames fetchSample suffixZero (fun _ => true) (fun _ => false)
      ("h".toList) ("out".toList) ["2016".toList, "2017".toList] id id = some [] ∧
    generateGIFRun fetchSample suffixZero (fun _ => true) (fun _ => false) true
      ("h".toList) ("out".toList) ("100".toList) ("50%".toList)
      ["2016".toList, "2017".toList] id id = some (.error (.emptyResult ("h".toList))) := by
  exact (C3_empty_result fetchSample suffixZero (fun _ => true) (fun _ => false) true
    ("h".toList) ("out".toList) ("100".toList) ("50%".toList)
    ["2016".toList, "2017".toList] id id (by decide)
    (fun l => List.Perm.refl l) (fun l => List.Perm.refl l)).2.1
    (by decide) (fun g => rfl) (fun s => rfl)

/-- C2 (amended): a failure of the render step (`jpg`, the SVG→JPG conversion) is
caught at the task boundary, logged, and converted into a per-item drop — the
stage emits exactly the surviving conversions, in order, and a failed conversion
still signals the join barrier, so conversion failures never prevent the jpg
channel from closing — and render failures make the pipeline as a whole fail only
through the empty-result check: whenever the sink does not drain an empty closed
channel, the run never fails with the empty-result error.  (As stated the claim
is false: the counterexample shows a run with a failing render input that still
succeeds.) -/
theorem C2_render_failure_dropped (convertOk : Str → Bool) (svgs : List Str) :
    jpgEmitted convertOk svgs =
      (svgs.filter convertOk).map (replaceFirst svgExt jpgExt) ∧
    (∀ size : Nat, genJPG convertOk size svgs =
      if svgs.length = size then
        some ((svgs.filter convertOk).map (replaceFirst svgExt jpgExt))
      else none) ∧
    (∀ (fetch : Str → Except Err Str) (suffix : Str → Str) (svgOk : graph → Bool)
        (gifOk : Bool) (handle dir speed resize : Str) (years : List Str)
        (sched1 : List activity → List activity) (sched2 : List Str → List Str),
      years ≠ [] →
      pipelineFrames fetch suffix svgOk convertOk handle dir years sched1 sched2 ≠
        some [] →
      generateGIFRun fetch suffix svgOk convertOk gifOk handle dir speed resize years
        sched1 sched2 ≠ some (.error (.emptyResult handle))) := by
  refine ⟨jpgEmitted_eq_filter_map convertOk svgs, ?_, ?_⟩
  · intro size
    unfold genJPG
    rw [jpgEmitted_eq_filter_map]
  · intro fetch suffix svgOk gifOk handle dir speed resize years sched1 sched2 hyears hfr
    intro hcontra
    exact hfr ((generateGIFRun_emptyResult_iff fetch suffix svgOk convertOk gifOk handle
      dir speed resize years sched1 sched2 hyears).mp hcontra)

/-- C2 as stated fails: in a two-period run where the render (SVG→JPG conversion)
of the 2016 frame fails, the pipeline does not fail as a whole — it drops the item
and succeeds, producing the GIF from the surviving 2017 frame. -/
theorem C2_counterexample :
    (fun s => !(s == "out/h-2016-0.svg".toList)) ("out/h-2016-0.svg".toList) = false ∧
    genSVG ("out".toList) suffixZero (fun _ => true)
      (genGraph (genActivitiesSeq fetchSample ("h".toList)
        ["2016".toList, "2017".toList])) =
      ["out/h-2016-0.svg".toList, "out/h-2017-0.svg".toList] ∧
    generateGIFRun fetchSample suffixZero (fun _ => true)
      (fun s => !(s == "out/h-2016-0.svg".toList)) true ("h".toList) ("out".toList)
      ("100".toList) ("50%".toList) ["2016".toList, "2017".toList] id id =
      some (.ok ("out/h.gif".toList)) :=
  ⟨by decide, by decide, by decide⟩

/-- Witness for C2: the failing 2016 conversion is dropped while 2017 survives,
the stage's barrier of two still completes (both SVGs arrived), and the run does
not fail with the empty-result error. -/
theorem C2_render_failure_dropped_witness :
    jpgEmitted (fun s => !(s == "out/h-2016-0.svg".toList))
        ["out/h-2016-0.svg".toList, "out/h-2017-0.svg".toList] =
      ["out/h-2017-0.jpg".toList] ∧
    genJPG (fun s => !(s == "out/h-2016-0.svg".toList)) 2
        ["out/h-2016-0.svg".toList, "out/h-2017-0.svg".toList] =
      some ["out/h-2017-0.jpg".toList] ∧
    generateGIFRun fetchSample suffixZero (fun _ => true)
      (fun s => !(s == "out/h-2016-0.svg".toList)) true ("h".toList) ("out".toList)
      ("100".toList) ("50%".toList) ["2016".toList, "2017".toList] id id ≠
      some (.error (.emptyResult ("h".toList))) := by
  have h := C2_render_failure_dropped (fun s => !(s == "out/h-2016-0.svg".toList))
    ["out/h-2016-0.svg".toList, "out/h-2017-0.svg".toList]
  refine ⟨h.1.trans (by decide), (h.2.1 2).trans (by decide), ?_⟩
  exact h.2.2 fetchSample suffixZero (fun _ => true) true ("h".toList) ("out".toList)
    ("100".toList) ("50%".toList) ["2016".toList, "2017".toList] id id
    (by decide) (by decide)

/-- C1 (amended): for a requested period set of `N ≥ 1` distinct PeriodKeys none
of which is a strict prefix of another (true in particular of equal-length keys
such as calendar years), with all post-fetch stages succeeding: when every
fetch/parse succeeds (`K = 0`), the sink emits — regardless of the completion
order of the two fan-out stages — exactly `N` frames, the generated file names of
the requested PeriodKeys listed in ascending PeriodKey order; but when `K ≥ 1`
fetch/parse attempts fail, the sink emits no frame sequence at all: `genJPG`'s
join barrier is keyed to the requested period count while only arriving items
signal it, so the jpg channel is never closed and the sink blocks forever.  As
stated the claim is false twice over: for `K ≥ 1` the run hangs instead of
emitting `N − K` frames, and even for `K = 0` the ordering fails on
prefix-pathological key sets, because the sink orders whole file names, not
PeriodKeys — see the counterexample, where the `2016!` frame precedes the `2016`
frame although `2016 < 2016!`.  The `hrepl` hypothesis pins the `.svg → .jpg`
rewrite of the `jpg` step to the file extension, which holds whenever `.svg` does
not occur inside the generated stem. -/
theorem C1_sink_sorted_frames
    (fetch : Str → Except Err Str) (suffix : Str → Str) (svgOk : graph → Bool)
    (convertOk : Str → Bool) (handle dir : Str) (years : List Str)
    (sched1 : List activity → List activity) (sched2 : List Str → List Str)
    (hs1 : ∀ l, List.Perm (sched1 l) l) (hs2 : ∀ l, List.Perm (sched2 l) l)
    (hnodup : years.Nodup)
    (hnp : ∀ y1 ∈ years, ∀ y2 ∈ years, matchesAt y1 y2 = true → y1 = y2)
    (hsvg : ∀ g, svgOk g = true) (hjpg : ∀ s, convertOk s = true)
    (hrepl : ∀ y ∈ years,
      replaceFirst svgExt jpgExt (svgStem dir suffix handle y ++ svgExt) =
        svgStem dir suffix handle y ++ jpgExt) :
    ((∀ y ∈ years, isOkE (parseActivity fetch handle y) = true) →
      pipelineFrames fetch suffix svgOk convertOk handle dir years sched1 sched2 =
        some ((List.insertionSort (· ≤ ·) years).map
          (fun y => svgStem dir suffix handle y ++ jpgExt)) ∧
      ((List.insertionSort (· ≤ ·) years).map
          (fun y => svgStem dir suffix handle y ++ jpgExt)).length = years.length ∧
      List.Sorted (· ≤ ·) (List.insertionSort (· ≤ ·) years)) ∧
    (∀ K : Nat,
      (years.filter (fun y => !(isOkE (parseActivity fetch handle y)))).length = K →
      1 ≤ K →
      pipelineFrames fetch suffix svgOk convertOk handle dir years sched1 sched2 =
        none) := by
  constructor
  · intro hall
    have hfe : years.filter (fun y => isOkE (parseActivity fetch handle y)) = years :=
      List.filter_eq_self.mpr hall
    have hpoint : ∀ y ∈ years,
        replaceFirst svgExt jpgExt
          (svgStem dir suffix
            ((((parseActivity fetch handle y).toOption).getD default).Handle)
            ((((parseActivity fetch handle y).toOption).getD default).Year) ++ svgExt) =
        svgStem dir suffix handle y ++ jpgExt := by
      intro y hy
      obtain ⟨a, ha⟩ := isOkE_true_iff.mp (hall y hy)
      obtain ⟨hH, hY⟩ := parseActivity_ok_fields ha
      rw [ha]
      simp only [Except.toOption, Option.getD]
      rw [hH, hY]
      exact hrepl y hy
    have hperm : List.Perm
        (bundleJPGs (sched2 (jpgEmitted convertOk
          (genSVG dir suffix svgOk
            (genGraph (sched1 (genActivitiesSeq fetch handle (genYears years))))))))
        (years.map (fun y => svgStem dir suffix handle y ++ jpgExt)) := by
      unfold bundleJPGs genYears
      refine (List.perm_insertionSort _ _).trans ?_
      refine (hs2 _).trans ?_
      rw [jpgEmitted_all_ok _ _ (fun s _ => hjpg s)]
      rw [genSVG_genGraph_eq _ _ _ _ hsvg]
      refine (((hs1 _).map _).map _).trans ?_
      rw [genActivitiesSeq_eq, List.map_map, List.map_map, hfe]
      refine List.Perm.of_eq ?_
      refine List.map_congr_left ?_
      intro y hy
      simp only [Function.comp]
      exact hpoint y hy
    have hkeys_sub : ∀ y ∈ List.insertionSort (· ≤ ·) years, y ∈ years := by
      intro y hy
      exact (List.mem_insertionSort _).mp hy
    have hkeys_sorted : List.Sorted (· ≤ ·) (List.insertionSort (· ≤ ·) years) :=
      List.sorted_insertionSort _ _
    have hkeys_nodup : (List.insertionSort (· ≤ ·) years).Nodup :=
      ((List.perm_insertionSort (· ≤ ·) _).nodup_iff).mpr hnodup
    have hsorted_paths : List.Sorted (· ≤ ·) ((List.insertionSort (· ≤ ·) years).map
        (fun y => svgStem dir suffix handle y ++ jpgExt)) := by
      rw [List.Sorted, List.pairwise_map]
      refine pairwise_imp_mem ?_ (hkeys_sorted.and hkeys_nodup)
      intro y1 h1m y2 h2m hr
      have hy1 := hkeys_sub y1 h1m
      have hy2 := hkeys_sub y2 h2m
      have e1 : svgStem dir suffix handle y1 ++ jpgExt =
          (dir ++ "/".toList ++ handle ++ "-".toList) ++ y1 ++
            ("-".toList ++ suffix y1 ++ jpgExt) := by
        simp [svgStem, List.append_assoc]
      have e2 : svgStem dir suffix handle y2 ++ jpgExt =
          (dir ++ "/".toList ++ handle ++ "-".toList) ++ y2 ++
            ("-".toList ++ suffix y2 ++ jpgExt) := by
        simp [svgStem, List.append_assoc]
      rw [e1, e2]
      refine str_concat_le hr.1 (hnp y1 hy1 y2 hy2) ?_
      intro hEq
      exact absurd hEq hr.2
    have hmain : bundleJPGs (sched2 (jpgEmitted convertOk
        (genSVG dir suffix svgOk
          (genGraph (sched1 (genActivitiesSeq fetch handle (genYears years))))))) =
        (List.insertionSort (· ≤ ·) years).map
          (fun y => svgStem dir suffix handle y ++ jpgExt) := by
      exact List.eq_of_perm_of_sorted
        (hperm.trans ((List.perm_insertionSort (· ≤ ·) _).symm.map _))
        (by unfold bundleJPGs; exact List.sorted_insertionSort _ _)
        hsorted_paths
    refine ⟨?_, ?_, hkeys_sorted⟩
    · rw [pipelineFrames_complete fetch suffix svgOk convertOk handle dir years
        sched1 sched2 hs1 hsvg hall, hmain]
    · rw [List.length_map, List.length_insertionSort]
  · intro K hK hK1
    have hKle : K ≤ years.length := by
      rw [← hK]
      exact List.length_filter_le _ _
    have hoklen : (years.filter (fun y => isOkE (parseActivity fetch handle y))).length =
        years.length - K := by
      have hsplit := length_filter_add_length_filter_not
        (fun y => isOkE (parseActivity fetch handle y)) years
      omega
    have hlen : (genSVG dir suffix svgOk
        (genGraph (sched1 (genActivitiesSeq fetch handle (genYears years))))).length =
        years.length - K := by
      rw [genSVG_genGraph_eq _ _ _ _ hsvg, List.length_map, (hs1 _).length_eq,
        genActivitiesSeq_eq, List.length_map]
      unfold genYears
      exact hoklen
    unfold pipelineFrames genJPG
    rw [hlen, if_neg (by omega)]

/-- C1 as stated fails: with requested PeriodKeys `2016` and `2016!` (one a strict
prefix of the other) and every stage succeeding, the sink emits the `2016!` frame
before the `2016` frame although `2016 < 2016!` as PeriodKeys — the frame sequence
is not ascending by PeriodKey (the sink sorts whole file names, and `!` sorts
before the `-` that separates the key from the random suffix). -/
theorem C1_counterexample :
    pipelineFrames fetchSample suffixZero (fun _ => true) (fun _ => true)
      ("h".toList) ("out".toList) ["2016".toList, "2016!".toList] id id =
      some ["out/h-2016!-0.jpg".toList, "out/h-2016-0.jpg".toList] ∧
    ("2016".toList : Str) ≤ "2016!".toList ∧
    ¬ (("2016!".toList : Str) ≤ "2016".toList) :=
  ⟨by decide, by decide, by decide⟩

/-- Witness for C1: two periods requested in descending order.  With both fetches
succeeding (`K = 0`) the sink emits both frames in ascending PeriodKey order;
with the 2016 fetch failing (`K = 1`) the jpg channel is never closed and the
sink blocks forever, emitting no frame sequence. -/
theorem C1_sink_sorted_frames_witness :
    pipelineFrames fetchSample suffixZero (fun _ => true) (fun _ => true)
      ("h".toList) ("out".toList) ["2017".toList, "2016".toList] id id =
      some ["out/h-2016-0.jpg".toList, "out/h-2017-0.jpg".toList] ∧
    pipelineFrames
      (fun u => if u = activityURL ("h".toList) ("2016".toList)
                then .error (.network u) else .ok htmlSample)
      suffixZero (fun _ => true) (fun _ => true) ("h".toList) ("out".toList)
      ["2017".toList, "2016".toList] id id = none := by
  have h1 := C1_sink_sorted_frames fetchSample suffixZero (fun _ => true)
    (fun _ => true) ("h".toList) ("out".toList) ["2017".toList, "2016".toList] id id
    (fun l => List.Perm.refl l) (fun l => List.Perm.refl l)
    (by decide) (by decide) (fun g => rfl) (fun s => rfl) (by decide)
  have h2 := C1_sink_sorted_frames
    (fun u => if u = activityURL ("h".toList) ("2016".toList)
              then .error (.network u) else .ok htmlSample)
    suffixZero (fun _ => true) (fun _ => true) ("h".toList) ("out".toList)
    ["2017".toList, "2016".toList] id id
    (fun l => List.Perm.refl l) (fun l => List.Perm.refl l)
    (by decide) (by decide) (fun g => rfl) (fun s => rfl) (by decide)
  refine ⟨(h1.1 (by decide)).1.trans (by decide), ?_⟩
  exact h2.2 1 (by decide) (by decide)
